import Mathlib

/-! Shallow embedding of the deepcool-ch170 display controller
(src/sensor_readings.rs, src/helpers.rs, src/ch_170.rs, src/sensor_reader.rs)
and proofs about it.

Real-valued sensor readings (Rust `f64`) are modelled as rationals (`ℚ`);
the four-byte IEEE-754 bit pattern stored for a temperature (`f32`) is
modelled by an arbitrary conversion function `f32bits : ℚ → Nat`, universally
quantified in every theorem that touches it, since none of the verified
properties depend on the concrete bit pattern.
-/

namespace DeepcoolCH170

/-- Temperature unit of `SensorReadings` (src/sensor_readings.rs). -/
inductive TemperatureUnit
  | Celsius
  | Fahrenheit
deriving DecidableEq, Repr

/-- Canonical telemetry record (src/sensor_readings.rs, `struct SensorReadings`).
Rust `f64` fields become `ℚ`. -/
structure SensorReadings where
  cpu_temp : ℚ
  cpu_power : ℚ
  cpu_usage : ℚ
  cpu_freq : ℚ
  cpu_cooler_rpm : ℚ
  gpu_temp : ℚ
  gpu_power : ℚ
  gpu_usage : ℚ
  gpu_freq : ℚ
  elapsed_time_ms : Nat
  polling_period : Nat
  all_temperature_unit : TemperatureUnit
deriving DecidableEq, Repr

/-- `SensorReadings::default()` (src/sensor_reader.rs line 137): zero-valued
record, Celsius unit. -/
def SensorReadings.default : SensorReadings :=
  ⟨0, 0, 0, 0, 0, 0, 0, 0, 0, 0, 0, .Celsius⟩

/-! Section: Display protocol constants (src/ch_170.rs lines 12-21) -/

def DISPLAY_REPORT_ID : Nat := 16

def DISPLAY_TERMINATOR : Nat := 22

def DISPLAY_PAYLOAD_SIZE : Nat := 64

def DISPLAY_PADDING_SIZE : Nat := 22

def MAX_CONNECTION_RETRIES : Nat := 3

def RETRY_DELAY_SECS : Nat := 5

def TEMPERATURE_UNIT_CELSIUS : Bool := false

/-! Section: Display modes (src/ch_170.rs lines 76-106) -/

/-- `enum DisplayMode` with `repr(u8)` discriminants 2, 3, 4. -/
inductive DisplayMode
  | CpuFrequency
  | CpuFan
  | Gpu
deriving DecidableEq, Repr

/-- The `repr(u8)` discriminant of each mode: `CpuFrequency = 2`,
`CpuFan = 3`, `Gpu = 4` (src/ch_170.rs lines 78-81). -/
def DisplayMode.tag : DisplayMode → Nat
  | .CpuFrequency => 2
  | .CpuFan => 3
  | .Gpu => 4

/-- `impl Default for DisplayMode` (src/ch_170.rs lines 84-88). -/
def DisplayMode.default : DisplayMode := .CpuFrequency

/-- `DisplayMode::next` (src/ch_170.rs lines 91-97), as a pure function
returning the successor mode. -/
def DisplayMode.next : DisplayMode → DisplayMode
  | .CpuFrequency => .Gpu
  | .Gpu => .CpuFan
  | .CpuFan => .CpuFrequency

/-- `DisplayMode::includes_cpu` (src/ch_170.rs lines 99-101). -/
def DisplayMode.includes_cpu : DisplayMode → Bool
  | .CpuFrequency => true
  | .CpuFan => true
  | .Gpu => false

/-- `DisplayMode::includes_gpu` (src/ch_170.rs lines 103-105). -/
def DisplayMode.includes_gpu : DisplayMode → Bool
  | .Gpu => true
  | .CpuFrequency => false
  | .CpuFan => false

/-! Section: Numeric conversions used by the encoder

`readings.x.round() as u16` in Rust rounds half away from zero and then
saturates into the integer type's range. -/

/-- Rust `f64::round`: nearest integer, half away from zero. -/
def rustRound (x : ℚ) : ℤ :=
  if 0 ≤ x then ⌊x + 1 / 2⌋ else ⌈x - 1 / 2⌉

/-- Rust `as u16` on a float-derived integer value: saturating cast. -/
def asU16 (z : ℤ) : Nat := min z.toNat 65535

/-- Rust `as u8` on a float-derived integer value: saturating cast. -/
def asU8 (z : ℤ) : Nat := min z.toNat 255

/-- Big-endian serialization of a `u16` field (zerocopy `byteorder::U16<BE>`). -/
def u16be (n : Nat) : List Nat :=
  [n / 256 % 256, n % 256]

/-- Big-endian serialization of the 32-bit pattern of an `f32` field
(zerocopy `byteorder::F32<BE>`). -/
def u32be (n : Nat) : List Nat :=
  [n / 16777216 % 256, n / 65536 % 256, n / 256 % 256, n % 256]

/-- One byte for a Rust `bool` field. -/
def boolByte : Bool → Nat
  | false => 0
  | true => 1

/-- Fixed five-byte header array `[u8; 5]` (src/ch_170.rs line 112). -/
structure Bytes5 where
  b0 : Nat
  b1 : Nat
  b2 : Nat
  b3 : Nat
  b4 : Nat
deriving DecidableEq, Repr

def Bytes5.toList (b : Bytes5) : List Nat :=
  [b.b0, b.b1, b.b2, b.b3, b.b4]

/-- `DISPLAY_HEADER: [u8; 5] = [104, 1, 6, 35, 1]` (src/ch_170.rs line 14). -/
def DISPLAY_HEADER : Bytes5 := ⟨104, 1, 6, 35, 1⟩

/-- `struct DisplayData` (src/ch_170.rs lines 109-137), the 39-byte data
block of the packet.  `u16`/`u8` fields hold their numeric value; the two
`f32` fields hold the 32-bit IEEE-754 pattern; `filler` is the trailing
`_filler: u8`. -/
structure DisplayData where
  fixed_header : Bytes5
  mode : DisplayMode
  cpu_power : Nat
  all_temperature_unit : Bool
  cpu_temperature : Nat
  cpu_utilization : Nat
  cpu_frequency : Nat
  cpu_fan_speed : Nat
  gpu_power : Nat
  gpu_temperature : Nat
  gpu_utilization : Nat
  gpu_frequency : Nat
  psu_power_1 : Nat
  psu_temperature : Nat
  psu_utilization : Nat
  psu_power_2 : Nat
  psu_fan_speed : Nat
  filler : Nat
deriving DecidableEq, Repr

/-- `#[derive(Default)]` for `DisplayData`: numeric zero everywhere,
default mode `CpuFrequency`, `false` for the bool. -/
def DisplayData.default : DisplayData :=
  ⟨⟨0, 0, 0, 0, 0⟩, DisplayMode.default, 0, false, 0, 0, 0, 0, 0, 0, 0, 0, 0, 0, 0, 0, 0, 0⟩

/-- Byte serialization of `DisplayData` (zerocopy `as_bytes` on the
`repr(C)` struct): 5 + 1 + 2 + 1 + 4 + 1 + 2 + 2 + 2 + 4 + 1 + 2 + 2 + 4 +
1 + 2 + 2 + 1 = 39 bytes, multi-byte fields big-endian. -/
def DisplayData.as_bytes (d : DisplayData) : List Nat :=
  d.fixed_header.toList.map (· % 256) ++ [d.mode.tag] ++
  u16be d.cpu_power ++ [boolByte d.all_temperature_unit] ++
  u32be d.cpu_temperature ++ [d.cpu_utilization % 256] ++
  u16be d.cpu_frequency ++ u16be d.cpu_fan_speed ++
  u16be d.gpu_power ++ u32be d.gpu_temperature ++
  [d.gpu_utilization % 256] ++ u16be d.gpu_frequency ++
  u16be d.psu_power_1 ++ u32be d.psu_temperature ++
  [d.psu_utilization % 256] ++ u16be d.psu_power_2 ++
  u16be d.psu_fan_speed ++ [d.filler % 256]

/-- `DisplayData::checksum` (src/ch_170.rs lines 140-143): sum of the data
block's bytes, low byte. -/
def DisplayData.checksum (d : DisplayData) : Nat :=
  d.as_bytes.sum % 256

/-- `DisplayData::set_cpu_data` (src/ch_170.rs lines 145-151).
`f32bits` models the `f64 → f32` bit-pattern conversion for the
temperature field. -/
def DisplayData.set_cpu_data (d : DisplayData) (r : SensorReadings)
    (f32bits : ℚ → Nat) : DisplayData :=
  { d with
    cpu_temperature := f32bits r.cpu_temp
    cpu_power := asU16 (rustRound r.cpu_power)
    cpu_utilization := asU8 (rustRound r.cpu_usage)
    cpu_frequency := asU16 (rustRound r.cpu_freq)
    cpu_fan_speed := asU16 (rustRound r.cpu_cooler_rpm) }

/-- `DisplayData::set_gpu_data` (src/ch_170.rs lines 153-158). -/
def DisplayData.set_gpu_data (d : DisplayData) (r : SensorReadings)
    (f32bits : ℚ → Nat) : DisplayData :=
  { d with
    gpu_temperature := f32bits r.gpu_temp
    gpu_power := asU16 (rustRound r.gpu_power)
    gpu_utilization := asU8 (rustRound r.gpu_usage)
    gpu_frequency := asU16 (rustRound r.gpu_freq) }

/-- `struct DisplayPayload` (src/ch_170.rs lines 161-169).  The trailing
`_filler: [u8; DISPLAY_PADDING_SIZE]` is zero-initialized by `default()`
and never written afterwards, so it is not stored; `as_bytes` emits it as
22 zero bytes. -/
structure DisplayPayload where
  report_id : Nat
  data : DisplayData
  checksum : Nat
  terminator : Nat
deriving DecidableEq, Repr

/-- Byte serialization of the full 64-byte payload (zerocopy `as_bytes`):
report id, 39-byte data block, checksum, terminator, 22 padding bytes. -/
def DisplayPayload.as_bytes (p : DisplayPayload) : List Nat :=
  [p.report_id % 256] ++ p.data.as_bytes ++
  [p.checksum % 256, p.terminator % 256] ++
  List.replicate DISPLAY_PADDING_SIZE 0

/-- `DisplayPayload::new` (src/ch_170.rs lines 172-179): default record
with report id, fixed header, temperature unit and terminator set. -/
def DisplayPayload.new : DisplayPayload :=
  { report_id := DISPLAY_REPORT_ID
    data := { DisplayData.default with
              fixed_header := DISPLAY_HEADER
              all_temperature_unit := TEMPERATURE_UNIT_CELSIUS }
    checksum := 0
    terminator := DISPLAY_TERMINATOR }

/-- `DisplayPayload::update` (src/ch_170.rs lines 181-193): set the mode
tag, overwrite the CPU group if the mode includes it, the GPU group if the
mode includes it, then recompute the checksum. -/
def DisplayPayload.update (p : DisplayPayload) (mode : DisplayMode)
    (r : SensorReadings) (f32bits : ℚ → Nat) : DisplayPayload :=
  let d0 := { p.data with mode := mode }
  let d1 := if mode.includes_cpu then d0.set_cpu_data r f32bits else d0
  let d2 := if mode.includes_gpu then d1.set_gpu_data r f32bits else d1
  { p with data := d2, checksum := d2.checksum }

/-! Section: Retry policy (src/helpers.rs lines 23-52)

The fallible operation is modelled as an oracle `f : Nat → Except E T`
giving the outcome of each successive invocation (`f 0` is the first call,
`f 1` the second, ...).  The `sleep` between attempts has no observable
effect in the model.  Exhaustion returns the last error together with the
attempt-count annotation `max_retries` from
`context(format!("Operation failed after {} attempts", max_retries))`,
modelled as the pair `(max_retries, e)`.  The second component of the
result counts how many times the operation was invoked. -/

/-- The `loop` body of `retry_with_backoff`, entered with `attempts`
failures recorded so far: call the operation; on success return; on
failure increment `attempts` and exit with the wrapped error once
`attempts >= max_retries`, else loop. -/
def retryGo (f : Nat → Except E T) (max_retries : Nat) (attempts : Nat) :
    Except (Nat × E) T × Nat :=
  match f attempts with
  | .ok v => (.ok v, 1)
  | .error e =>
    if max_retries ≤ attempts + 1 then
      (.error (max_retries, e), 1)
    else
      let p := retryGo f max_retries (attempts + 1)
      (p.1, p.2 + 1)
termination_by max_retries - attempts
decreasing_by omega

/-- `retry_with_backoff(max_retries, delay_secs, f)` (src/helpers.rs
lines 23-52).  `delay_secs` only controls the sleep and is unobservable
in the pure model. -/
def retry_with_backoff (max_retries : Nat) (delay_secs : Nat)
    (f : Nat → Except E T) : Except (Nat × E) T × Nat :=
  retryGo f max_retries 0

/-! Section: Sensor reader (src/sensor_reader.rs) -/

def MAX_NO_CHANGE_COUNT : Nat := 5

/-- `enum SensorReadingType` (src/sensor_reader.rs lines 35-45). -/
inductive SensorReadingType
  | None
  | Temp
  | Volt
  | Fan
  | Current
  | Power
  | Clock
  | Usage
  | Other
deriving DecidableEq, Repr

/-- `struct HWiNFOSensorElement` (src/sensor_reader.rs lines 64-72). -/
structure HWiNFOSensorElement where
  sensor_id : Nat
  sensor_inst : Nat
  sensor_name_orig : String
  sensor_name_user : String
  sensor_name_user_utf8 : String
deriving DecidableEq, Repr

/-- `struct HWiNFOReadingElement` (src/sensor_reader.rs lines 47-62).
Double-precision values become `ℚ`. -/
structure HWiNFOReadingElement where
  reading_type : SensorReadingType
  sensor_index : Nat
  reading_id : Nat
  original_label : String
  user_label : String
  unit : String
  value : ℚ
  min_value : ℚ
  max_value : ℚ
  avg_value : ℚ
  user_label_utf8 : String
  unit_utf8 : String
deriving DecidableEq, Repr

/-- Rust `str::contains(pattern)`: substring test. -/
def strContains (s pattern : String) : Bool :=
  decide (pattern.toList <:+: s.toList)

/-- The nine `SensorReadings` metric fields populated by the sweep. -/
inductive MetricField
  | cpuTemp
  | cpuPower
  | cpuUsage
  | cpuFreq
  | cpuCoolerRpm
  | gpuTemp
  | gpuPower
  | gpuUsage
  | gpuFreq
deriving DecidableEq, Repr

/-- Project one metric field out of a `SensorReadings` record. -/
def getMetric (r : SensorReadings) : MetricField → ℚ
  | .cpuTemp => r.cpu_temp
  | .cpuPower => r.cpu_power
  | .cpuUsage => r.cpu_usage
  | .cpuFreq => r.cpu_freq
  | .cpuCoolerRpm => r.cpu_cooler_rpm
  | .gpuTemp => r.gpu_temp
  | .gpuPower => r.gpu_power
  | .gpuUsage => r.gpu_usage
  | .gpuFreq => r.gpu_freq

/-- The fixed `(sensor name, label)` match table of
`SensorReader::read_all_sensors` (src/sensor_reader.rs lines 255-319):
which metric field, if any, a reading targets.  A `sensor_index` outside
the bounds of the owned sensor list yields `none` (the `self.sensors.get`
bounds check); labels on the per-core clock node that contain `"perf #"`
target the averaged CPU frequency. -/
def targetOf (sensors : List HWiNFOSensorElement)
    (rd : HWiNFOReadingElement) : Option MetricField :=
  match sensors[rd.sensor_index]? with
  | none => none
  | some sensor =>
    let name := sensor.sensor_name_user_utf8
    let label := rd.user_label_utf8
    if name = "CPU [#0]: AMD Ryzen 7 9800X3D: Enhanced" then
      if label = "CPU (Tctl/Tdie)" then some .cpuTemp
      else if label = "CPU Package Power" then some .cpuPower
      else none
    else if name = "CPU [#0]: AMD Ryzen 7 9800X3D" then
      if label = "Total CPU Usage" then some .cpuUsage
      else if strContains label "perf #" then some .cpuFreq
      else none
    else if name = "ASUS ROG STRIX B850-I GAMING WIFI (Nuvoton NCT6701D)" then
      if label = "CPU" then some .cpuCoolerRpm
      else none
    else if name = "GPU [#0]: NVIDIA GeForce RTX 5080: Inno3D GeForce RTX 5080" then
      if label = "GPU Temperature" then some .gpuTemp
      else if label = "GPU Power" then some .gpuPower
      else if label = "GPU Core Load" then some .gpuUsage
      else if label = "GPU Clock" then some .gpuFreq
      else none
    else none

/-- One iteration of the sweep loop of `read_all_sensors`
(src/sensor_reader.rs lines 248-330), acting on the pair
(readings so far, collected per-core clock values).  A reading that
targets `cpuFreq` pushes its value onto the `cpu_freq_values` list; any
other target overwrites its field; no target (unmatched pair or
out-of-bounds `sensor_index`) leaves the state unchanged. -/
def applyReading (sensors : List HWiNFOSensorElement)
    (p : SensorReadings × List ℚ) (rd : HWiNFOReadingElement) :
    SensorReadings × List ℚ :=
  match targetOf sensors rd with
  | Option.none => p
  | some .cpuTemp => ({ p.1 with cpu_temp := rd.value }, p.2)
  | some .cpuPower => ({ p.1 with cpu_power := rd.value }, p.2)
  | some .cpuUsage => ({ p.1 with cpu_usage := rd.value }, p.2)
  | some .cpuFreq => (p.1, p.2 ++ [rd.value])
  | some .cpuCoolerRpm => ({ p.1 with cpu_cooler_rpm := rd.value }, p.2)
  | some .gpuTemp => ({ p.1 with gpu_temp := rd.value }, p.2)
  | some .gpuPower => ({ p.1 with gpu_power := rd.value }, p.2)
  | some .gpuUsage => ({ p.1 with gpu_usage := rd.value }, p.2)
  | some .gpuFreq => ({ p.1 with gpu_freq := rd.value }, p.2)

/-- `SensorReader::read_all_sensors` (src/sensor_reader.rs lines 244-344):
sweep the reading table in order, then, if any per-core clock values were
collected, overwrite `cpu_freq` with their arithmetic mean. -/
def read_all_sensors (readings : SensorReadings)
    (sensors : List HWiNFOSensorElement)
    (table : List HWiNFOReadingElement) : SensorReadings :=
  let p := table.foldl (applyReading sensors) (readings, [])
  if p.2.isEmpty then p.1
  else { p.1 with cpu_freq := p.2.sum / (p.2.length : ℚ) }

/-- Mutable state of `struct SensorReader` relevant to `update()`
(src/sensor_reader.rs lines 90-96); the memory-mapping handle and raw
pointer are replaced by per-call shared-memory content passed to
`update`. -/
structure SensorReader where
  sensors : List HWiNFOSensorElement
  readings : SensorReadings
  no_change_counter : Nat
deriving DecidableEq, Repr

/-- `SensorReader::update` (src/sensor_reader.rs lines 167-242).

The shared-memory content observed by this call is passed as
`polling_period` (header field) and `table` (the reading table); the
outcomes of the successive `Self::new()` reconnect attempts are the
oracle `newf`, run through `retry_with_backoff(MAX_CONNECTION_RETRIES,
RETRY_DELAY_SECS, ...)` exactly as in the source.

If the staleness counter exceeds `MAX_NO_CHANGE_COUNT` the call only
reconnects: on success the whole reader is replaced and the call returns
without parsing; on failure the call returns the error.  Otherwise the
call snapshots the old readings, stores the header's polling period,
sweeps the reading table, and increments the staleness counter when the
record is unchanged (resetting it to zero otherwise). -/
def SensorReader.update (s : SensorReader)
    (newf : Nat → Except E SensorReader)
    (polling_period : Nat) (table : List HWiNFOReadingElement) :
    Except (Nat × E) SensorReader :=
  if MAX_NO_CHANGE_COUNT < s.no_change_counter then
    match (retry_with_backoff MAX_CONNECTION_RETRIES RETRY_DELAY_SECS newf).1 with
    | .ok new_reader => .ok new_reader
    | .error e => .error e
  else
    let old_readings := s.readings
    let r1 := { s.readings with polling_period := polling_period }
    let r2 := read_all_sensors r1 s.sensors table
    let cnt := if old_readings = r2 then s.no_change_counter + 1 else 0
    .ok { s with readings := r2, no_change_counter := cnt }

/-! Section: CH170 display component (src/ch_170.rs lines 24-73)

The HID device handle is not representable; the outcomes of the two
possible device writes and of the `Self::new()` reconnection are passed
as `Except` parameters.  `Self::new()` always yields a fresh
`DisplayPayload::new()` and `DisplayMode::default()` (src/ch_170.rs
lines 31-41), so a successful reconnection is fully determined. -/

/-- Observable state of `struct CH170Display` (device handle elided). -/
structure CH170Display where
  payload : DisplayPayload
  mode : DisplayMode
deriving DecidableEq, Repr

/-- The payload/mode part of `CH170Display::new()`. -/
def CH170Display.fresh : CH170Display :=
  { payload := DisplayPayload.new, mode := DisplayMode.default }

/-- `CH170Display::switch_mode` (src/ch_170.rs lines 43-46). -/
def CH170Display.switch_mode (s : CH170Display) : CH170Display :=
  { s with mode := s.mode.next }

/-- Result of one `CH170Display::update` call: the final component state,
the returned error (if any), how many device writes were attempted, and
whether a reconnected replacement was installed. -/
structure UpdateOutcome (E : Type) where
  state : CH170Display
  result : Option E
  writes : Nat
  reconnected : Bool
deriving Repr

/-- `CH170Display::update` (src/ch_170.rs lines 48-64): stage the payload
for the current mode and readings, write; on write failure run
`*self = Self::new()?` (on reconnection failure the error propagates and
no replacement is installed), restage the payload — now with the fresh
component's default mode — and retry the write exactly once, surfacing a
second failure. -/
def CH170Display.update (s : CH170Display) (r : SensorReadings)
    (f32bits : ℚ → Nat) (w1 : Except E Unit) (rc : Except E Unit)
    (w2 : Except E Unit) : UpdateOutcome E :=
  let s1 := { s with payload := s.payload.update s.mode r f32bits }
  match w1 with
  | .ok _ => ⟨s1, none, 1, false⟩
  | .error _ =>
    match rc with
    | .error e => ⟨s1, some e, 1, false⟩
    | .ok _ =>
      let s2 := { CH170Display.fresh with
                  payload := CH170Display.fresh.payload.update
                    CH170Display.fresh.mode r f32bits }
      match w2 with
      | .ok _ => ⟨s2, none, 2, true⟩
      | .error e => ⟨s2, some e, 2, true⟩

/-! Section: Lemmas about the retry policy -/

variable {E T : Type}

/-- The loop of `retry_with_backoff` invokes the operation at most
`max n 1` times when entered with `a` prior failures (bounded by the
fuel `d`). -/
theorem retryGo_count_le (f : Nat → Except E T) (n : Nat) :
    ∀ (d a : Nat), n - a ≤ d → (retryGo f n a).2 ≤ max (n - a) 1 := by
  intro d
  induction d with
  | zero =>
    intro a h
    rw [retryGo]
    cases f a with
    | ok v => simp
    | error e =>
      have : n ≤ a + 1 := by omega
      simp [this]
  | succ d ih =>
    intro a h
    rw [retryGo]
    cases f a with
    | ok v => simp
    | error e =>
      by_cases hle : n ≤ a + 1
      · simp [hle]
      · simp only [hle, if_false]
        have h2 := ih (a + 1) (by omega)
        show (retryGo f n (a + 1)).2 + 1 ≤ max (n - a) 1
        omega

/-- If invocation `k` is the first to succeed and the loop reaches it,
the loop returns its value having invoked the operation `k + 1 - a`
further times. -/
theorem retryGo_ok (f : Nat → Except E T) (n k : Nat) (v : T)
    (hk : k < max n 1) (hsucc : f k = .ok v)
    (hfail : ∀ j, j < k → ∃ e, f j = .error e) :
    ∀ (d a : Nat), k - a ≤ d → a ≤ k →
      retryGo f n a = (.ok v, k + 1 - a) := by
  intro d
  induction d with
  | zero =>
    intro a h ha
    have : a = k := by omega
    subst this
    rw [retryGo, hsucc]
    simp
  | succ d ih =>
    intro a h ha
    by_cases hak : a = k
    · subst hak
      rw [retryGo, hsucc]
      simp
    · have hak' : a < k := by omega
      obtain ⟨e, he⟩ := hfail a hak'
      rw [retryGo, he]
      have hne : ¬ n ≤ a + 1 := by omega
      simp only [hne, if_false]
      rw [ih (a + 1) (by omega) (by omega)]
      simp
      omega

/-- If every invocation up to the exhaustion bound fails, the loop
returns the last invocation's error wrapped with the attempt-count
annotation `n`, having invoked the operation `max n 1 - a` further
times. -/
theorem retryGo_fail (f : Nat → Except E T) (n : Nat)
    (hfail : ∀ j, j < max n 1 → ∃ e, f j = .error e) :
    ∀ (d a : Nat), max n 1 - a ≤ d → a < max n 1 →
      ∃ e, f (max n 1 - 1) = .error e ∧
        retryGo f n a = (.error (n, e), max n 1 - a) := by
  intro d
  induction d with
  | zero => intro a h ha; omega
  | succ d ih =>
    intro a h ha
    by_cases hlast : a = max n 1 - 1
    · obtain ⟨e, he⟩ := hfail a ha
      refine ⟨e, by rw [← hlast]; exact he, ?_⟩
      rw [retryGo, he]
      have h1 : n ≤ a + 1 := by omega
      simp only [h1, if_true]
      have h2 : max n 1 - a = 1 := by omega
      rw [h2]
    · have ha' : a < max n 1 - 1 := by omega
      obtain ⟨e, he⟩ := hfail a ha
      obtain ⟨e', he', hgo⟩ := ih (a + 1) (by omega) (by omega)
      refine ⟨e', he', ?_⟩
      rw [retryGo, he]
      have hne : ¬ n ≤ a + 1 := by omega
      simp only [hne, if_false, hgo]
      simp
      omega

/-! Section: Lemmas about the reading sweep -/

/-- Whether a reading is a per-core clock reading collected for the CPU
frequency average. -/
def isPerfCoreReading (sensors : List HWiNFOSensorElement)
    (rd : HWiNFOReadingElement) : Bool :=
  decide (targetOf sensors rd = some .cpuFreq)

/-- The per-core clock values a sweep of `table` collects, in order. -/
def perfValues (sensors : List HWiNFOSensorElement)
    (table : List HWiNFOReadingElement) : List ℚ :=
  (table.filter (isPerfCoreReading sensors)).map (fun rd => rd.value)

theorem applyReading_fst_cpu_freq (sensors : List HWiNFOSensorElement)
    (p : SensorReadings × List ℚ) (rd : HWiNFOReadingElement) :
    (applyReading sensors p rd).1.cpu_freq = p.1.cpu_freq := by
  unfold applyReading
  cases targetOf sensors rd with
  | none => rfl
  | some fld => cases fld <;> rfl

theorem applyReading_snd (sensors : List HWiNFOSensorElement)
    (p : SensorReadings × List ℚ) (rd : HWiNFOReadingElement) :
    (applyReading sensors p rd).2 =
      p.2 ++ (if isPerfCoreReading sensors rd then [rd.value] else []) := by
  unfold applyReading isPerfCoreReading
  cases targetOf sensors rd with
  | none => simp
  | some fld => cases fld <;> simp

theorem applyReading_fst_of_not_target (sensors : List HWiNFOSensorElement)
    (p : SensorReadings × List ℚ) (rd : HWiNFOReadingElement)
    (fld : MetricField) (h : targetOf sensors rd ≠ some fld) :
    getMetric (applyReading sensors p rd).1 fld = getMetric p.1 fld := by
  unfold applyReading
  cases ht : targetOf sensors rd with
  | none => rfl
  | some f2 =>
    cases f2 <;> cases fld <;> first | rfl | exact absurd ht h

theorem sweep_foldl_snd (sensors : List HWiNFOSensorElement)
    (table : List HWiNFOReadingElement) :
    ∀ init : SensorReadings × List ℚ,
      (table.foldl (applyReading sensors) init).2 =
        init.2 ++ perfValues sensors table := by
  induction table with
  | nil => intro init; simp [perfValues]
  | cons rd tl ih =>
    intro init
    rw [List.foldl_cons, ih, applyReading_snd]
    unfold perfValues
    rw [List.filter_cons]
    by_cases h : isPerfCoreReading sensors rd
    · simp [h, perfValues]
    · simp [h, perfValues]

theorem sweep_foldl_fst_cpu_freq (sensors : List HWiNFOSensorElement)
    (table : List HWiNFOReadingElement) :
    ∀ init : SensorReadings × List ℚ,
      (table.foldl (applyReading sensors) init).1.cpu_freq =
        init.1.cpu_freq := by
  induction table with
  | nil => intro init; rfl
  | cons rd tl ih =>
    intro init
    rw [List.foldl_cons, ih, applyReading_fst_cpu_freq]

theorem sweep_foldl_fst_of_not_target (sensors : List HWiNFOSensorElement)
    (table : List HWiNFOReadingElement) (fld : MetricField)
    (h : ∀ rd ∈ table, targetOf sensors rd ≠ some fld) :
    ∀ init : SensorReadings × List ℚ,
      getMetric (table.foldl (applyReading sensors) init).1 fld =
        getMetric init.1 fld := by
  induction table with
  | nil => intro init; rfl
  | cons rd tl ih =>
    intro init
    rw [List.foldl_cons,
      ih (fun x hx => h x (List.mem_cons_of_mem rd hx)),
      applyReading_fst_of_not_target sensors init rd fld
        (h rd (List.mem_cons_self rd tl))]

theorem getMetric_set_cpu_freq (r : SensorReadings) (v : ℚ)
    (fld : MetricField) (h : fld ≠ .cpuFreq) :
    getMetric { r with cpu_freq := v } fld = getMetric r fld := by
  cases fld <;> first | rfl | exact absurd rfl h

/-- Storing the header's polling period touches no metric field. -/
theorem getMetric_set_polling_period (r : SensorReadings) (pp : Nat)
    (fld : MetricField) :
    getMetric { r with polling_period := pp } fld = getMetric r fld := by
  cases fld <;> rfl

/-- A reading whose `sensor_index` is out of bounds matches nothing. -/
theorem targetOf_oob (sensors : List HWiNFOSensorElement)
    (rd : HWiNFOReadingElement) (h : sensors.length ≤ rd.sensor_index) :
    targetOf sensors rd = none := by
  unfold targetOf
  rw [List.getElem?_eq_none h]

/-- A reading that matches nothing leaves the sweep state unchanged. -/
theorem applyReading_none (sensors : List HWiNFOSensorElement)
    (p : SensorReadings × List ℚ) (rd : HWiNFOReadingElement)
    (h : targetOf sensors rd = none) :
    applyReading sensors p rd = p := by
  unfold applyReading
  rw [h]

/-! Section: Lemmas about the payload encoding -/

/-- The serialized data block is exactly 39 bytes. -/
theorem data_as_bytes_length (d : DisplayData) : d.as_bytes.length = 39 := by
  simp [DisplayData.as_bytes, Bytes5.toList, u16be, u32be]

/-- The serialized payload is always exactly 64 bytes. -/
theorem as_bytes_length (p : DisplayPayload) : p.as_bytes.length = 64 := by
  simp [DisplayPayload.as_bytes, data_as_bytes_length, DISPLAY_PADDING_SIZE]

/-- Byte 40 of the serialized payload is the checksum field. -/
theorem as_bytes_get40 (p : DisplayPayload) :
    p.as_bytes[40]? = some (p.checksum % 256) := by
  have h : ([p.report_id % 256] ++ p.data.as_bytes).length = 40 := by
    simp [data_as_bytes_length]
  unfold DisplayPayload.as_bytes
  rw [List.append_assoc ([p.report_id % 256] ++ p.data.as_bytes)]
  rw [List.getElem?_append_right (by omega)]
  rw [h]
  rfl

/-- `DisplayPayload::update` stores `DisplayData::checksum` of the updated
data block in the checksum field. -/
theorem update_checksum (p : DisplayPayload) (mode : DisplayMode)
    (r : SensorReadings) (f32bits : ℚ → Nat) :
    (p.update mode r f32bits).checksum =
      (p.update mode r f32bits).data.as_bytes.sum % 256 := rfl

/-! Section: Claim theorems -/

/-- Claim C2: for every display mode and every `SensorReadings` value (in
fact for every payload state), the encoded device payload is exactly 64
bytes long, and after every `DisplayPayload::update` the checksum byte
(byte 40, between the 39-byte data block at bytes 1-39 and the terminator
at byte 41) equals the sum of the data-block bytes modulo 256. -/
theorem C2_encode_size_and_checksum :
    (∀ p : DisplayPayload, p.as_bytes.length = 64) ∧
    (∀ (p : DisplayPayload) (mode : DisplayMode) (r : SensorReadings)
       (f32bits : ℚ → Nat),
      (p.update mode r f32bits).as_bytes[40]? =
        some ((p.update mode r f32bits).data.as_bytes.sum % 256)) := by
  constructor
  · exact as_bytes_length
  · intro p mode r f32bits
    rw [as_bytes_get40, update_checksum, Nat.mod_mod_of_dvd _ dvd_rfl]

/-- Claim C3: updating the payload in a CPU mode (`CpuFrequency` or
`CpuFan`) leaves the four GPU metric fields byte-identical to their prior
values, and updating in `Gpu` mode leaves the five CPU metric fields
byte-identical; moreover no mode touches the fixed header, the
temperature-unit flag, the PSU fields, the filler, the report id or the
terminator. -/
theorem C3_mode_group_frame :
    ∀ (p : DisplayPayload) (r : SensorReadings) (f32bits : ℚ → Nat),
      ((p.update .CpuFrequency r f32bits).data.gpu_power = p.data.gpu_power ∧
       (p.update .CpuFrequency r f32bits).data.gpu_temperature = p.data.gpu_temperature ∧
       (p.update .CpuFrequency r f32bits).data.gpu_utilization = p.data.gpu_utilization ∧
       (p.update .CpuFrequency r f32bits).data.gpu_frequency = p.data.gpu_frequency) ∧
      ((p.update .CpuFan r f32bits).data.gpu_power = p.data.gpu_power ∧
       (p.update .CpuFan r f32bits).data.gpu_temperature = p.data.gpu_temperature ∧
       (p.update .CpuFan r f32bits).data.gpu_utilization = p.data.gpu_utilization ∧
       (p.update .CpuFan r f32bits).data.gpu_frequency = p.data.gpu_frequency) ∧
      ((p.update .Gpu r f32bits).data.cpu_power = p.data.cpu_power ∧
       (p.update .Gpu r f32bits).data.cpu_temperature = p.data.cpu_temperature ∧
       (p.update .Gpu r f32bits).data.cpu_utilization = p.data.cpu_utilization ∧
       (p.update .Gpu r f32bits).data.cpu_frequency = p.data.cpu_frequency ∧
       (p.update .Gpu r f32bits).data.cpu_fan_speed = p.data.cpu_fan_speed) ∧
      (∀ mode : DisplayMode,
        (p.update mode r f32bits).data.fixed_header = p.data.fixed_header ∧
        (p.update mode r f32bits).data.all_temperature_unit = p.data.all_temperature_unit ∧
        (p.update mode r f32bits).data.psu_power_1 = p.data.psu_power_1 ∧
        (p.update mode r f32bits).data.psu_temperature = p.data.psu_temperature ∧
        (p.update mode r f32bits).data.psu_utilization = p.data.psu_utilization ∧
        (p.update mode r f32bits).data.psu_power_2 = p.data.psu_power_2 ∧
        (p.update mode r f32bits).data.psu_fan_speed = p.data.psu_fan_speed ∧
        (p.update mode r f32bits).data.filler = p.data.filler ∧
        (p.update mode r f32bits).report_id = p.report_id ∧
        (p.update mode r f32bits).terminator = p.terminator ∧
        (p.update mode r f32bits).data.mode = mode) :=
  fun p r f32bits =>
    ⟨⟨rfl, rfl, rfl, rfl⟩, ⟨rfl, rfl, rfl, rfl⟩, ⟨rfl, rfl, rfl, rfl, rfl⟩,
      fun mode => by
        cases mode <;>
          exact ⟨rfl, rfl, rfl, rfl, rfl, rfl, rfl, rfl, rfl, rfl, rfl⟩⟩

/-- Claim C9: the display mode cycles CpuFrequency → Gpu → CpuFan →
CpuFrequency; `switch_mode` advances one step, and three consecutive
`switch_mode` calls return any state to its starting mode. -/
theorem C9_mode_cycle :
    (DisplayMode.next .CpuFrequency = .Gpu ∧
     DisplayMode.next .Gpu = .CpuFan ∧
     DisplayMode.next .CpuFan = .CpuFrequency) ∧
    (∀ m : DisplayMode, m.next.next.next = m) ∧
    (∀ s : CH170Display,
      s.switch_mode.mode = s.mode.next ∧
      s.switch_mode.switch_mode.switch_mode.mode = s.mode) := by
  have h3 : ∀ m : DisplayMode, m.next.next.next = m := fun m => by
    cases m <;> rfl
  exact ⟨⟨rfl, rfl, rfl⟩, h3, fun s => ⟨rfl, h3 s.mode⟩⟩

/-- Claim C10: immediately after `DisplayPayload::new()`, the 64-byte
serialization is report id 16, the fixed header 104,1,6,35,1, the default
mode tag 2 at byte 6, 33 zero bytes (all metric fields and the checksum
at byte 40), the terminator 22 at byte 41 and 22 zero padding bytes; in
particular the checksum field is 0 and does not satisfy the checksum
equation (the data-block bytes sum to 149). -/
theorem C10_initial_payload_bytes :
    DisplayPayload.new.as_bytes =
      [16, 104, 1, 6, 35, 1, 2] ++ List.replicate 33 0 ++ [0, 22] ++
        List.replicate 22 0 ∧
    DisplayPayload.new.checksum = 0 ∧
    DisplayPayload.new.data.as_bytes.sum % 256 = 149 ∧
    DisplayPayload.new.checksum ≠ DisplayPayload.new.data.as_bytes.sum % 256 := by
  exact ⟨by decide, rfl, by decide, by decide⟩

/-- Claim C5: on a failed device write inside `CH170Display::update`, the
component reconnects via `*self = Self::new()?` and retries the write
exactly once, surfacing a second failure to the caller; if the
reconnection itself fails, no replacement is installed — the component
keeps its entry state (same mode, payload staged with this call's
readings) and the reconnection error is returned.  A successful first
write performs no reconnection and exactly one write. -/
theorem C5_write_failure_reconnect_retry {E : Type} :
    ∀ (s : CH170Display) (r : SensorReadings) (f32bits : ℚ → Nat)
      (rc w2 : Except E Unit) (we e : E),
      (s.update r f32bits (.ok ()) rc w2 =
        ⟨{ s with payload := s.payload.update s.mode r f32bits },
          none, 1, false⟩) ∧
      (s.update r f32bits (.error we) (.error e) w2 =
        ⟨{ s with payload := s.payload.update s.mode r f32bits },
          some e, 1, false⟩) ∧
      (s.update r f32bits (.error we) (.ok ()) (.error e) =
        ⟨{ CH170Display.fresh with
            payload := CH170Display.fresh.payload.update
              CH170Display.fresh.mode r f32bits },
          some e, 2, true⟩) ∧
      (s.update r f32bits (.error we) (.ok ()) (.ok ()) =
        ⟨{ CH170Display.fresh with
            payload := CH170Display.fresh.payload.update
              CH170Display.fresh.mode r f32bits },
          none, 2, true⟩) :=
  fun s r f32bits rc w2 we e => ⟨rfl, rfl, rfl, rfl⟩

/-- Claim C4 (counterexample): with maximum attempt count `n = 0` the
operation is still invoked once, so "at most n invocations in total" is
false as stated. -/
theorem C4_counterexample :
    (retry_with_backoff 0 0 (fun _ => (Except.error 0 : Except Nat Nat))).2 = 1 ∧
    ¬ (retry_with_backoff 0 0 (fun _ => (Except.error 0 : Except Nat Nat))).2 ≤ 0 := by
  constructor <;> simp [retry_with_backoff, retryGo]

/-- Claim C4 (amended): `retry_with_backoff n delay f` invokes `f` until
the first success and at most `max n 1` times in total; if the first
success among those invocations is invocation `k` (zero-based, earlier
ones failing), its result is returned after exactly `k + 1` invocations;
if the first `max n 1` invocations all fail, the error of the last one is
returned wrapped with the attempt-count annotation `n` after exactly
`max n 1` invocations. -/
theorem C4_retry_contract {E T : Type} :
    (∀ (n d : Nat) (f : Nat → Except E T),
      (retry_with_backoff n d f).2 ≤ max n 1) ∧
    (∀ (n d k : Nat) (f : Nat → Except E T) (v : T),
      k < max n 1 → f k = .ok v → (∀ j, j < k → ∃ e, f j = .error e) →
      retry_with_backoff n d f = (.ok v, k + 1)) ∧
    (∀ (n d : Nat) (f : Nat → Except E T),
      (∀ j, j < max n 1 → ∃ e, f j = .error e) →
      ∃ e, f (max n 1 - 1) = .error e ∧
        retry_with_backoff n d f = (.error (n, e), max n 1)) := by
  refine ⟨?_, ?_, ?_⟩
  · intro n d f
    have h := retryGo_count_le f n n 0 (by omega)
    simpa using h
  · intro n d k f v hk hok hfail
    have h := retryGo_ok f n k v hk hok hfail k 0 (by omega) (by omega)
    simpa using h
  · intro n d f hfail
    obtain ⟨e, he, hgo⟩ := retryGo_fail f n hfail (max n 1) 0 (by omega) (by omega)
    exact ⟨e, he, by simpa using hgo⟩

/-- Claim C4 (witness): concrete instances of the amended contract — with
`n = 3` and an operation succeeding on its second invocation the value is
returned after two invocations, and with `n = 2` and an always-failing
operation the last error is returned annotated with `2` after two
invocations. -/
theorem C4_retry_contract_witness :
    retry_with_backoff 3 0
        (fun j => if j = 1 then (Except.ok 7 : Except Nat Nat)
                  else .error 5) = (.ok 7, 2) ∧
    retry_with_backoff 2 0 (fun _ => (Except.error 9 : Except Nat Nat)) =
      (.error (2, 9), 2) := by
  constructor
  · exact C4_retry_contract.2.1 3 0 1
      (fun j => if j = 1 then (Except.ok 7 : Except Nat Nat) else .error 5) 7
      (by decide) rfl
      (fun j hj => ⟨5, by have : j = 0 := by omega
                          subst this
                          rfl⟩)
  · obtain ⟨e, he, h⟩ := C4_retry_contract.2.2 2 0
      (fun _ => (Except.error 9 : Except Nat Nat)) (fun j hj => ⟨9, rfl⟩)
    have he' : e = 9 := by
      have : Except.error (ε := Nat) (α := Nat) 9 = .error e := he
      cases this
      rfl
    subst he'
    exact h

/-- Characterization of `read_all_sensors`: sweep the table from the
initial record, then overwrite `cpu_freq` with the mean of the collected
per-core clock values unless none were collected. -/
theorem read_all_sensors_eq (r : SensorReadings)
    (sensors : List HWiNFOSensorElement)
    (table : List HWiNFOReadingElement) :
    read_all_sensors r sensors table =
      (if perfValues sensors table = [] then
        (table.foldl (applyReading sensors) (r, [])).1
      else
        { (table.foldl (applyReading sensors) (r, [])).1 with
          cpu_freq := (perfValues sensors table).sum /
            ((perfValues sensors table).length : ℚ) }) := by
  show (if ((table.foldl (applyReading sensors) (r, ([] : List ℚ))).2).isEmpty = true then
      (table.foldl (applyReading sensors) (r, [])).1
    else
      { (table.foldl (applyReading sensors) (r, [])).1 with
        cpu_freq := ((table.foldl (applyReading sensors) (r, [])).2).sum /
          (((table.foldl (applyReading sensors) (r, [])).2).length : ℚ) }) = _
  rw [sweep_foldl_snd sensors table (r, []), List.nil_append]
  by_cases hp : perfValues sensors table = []
  · simp [hp]
  · simp [hp]

/-- Concrete witness inputs: the per-core clock CPU sensor node and two
per-core clock readings with values 4700 and 4900, plus a reading whose
`sensor_index` (5) is out of bounds for a one-sensor list. -/
def wCpuSensor : HWiNFOSensorElement :=
  ⟨0, 0, "CPU [#0]: AMD Ryzen 7 9800X3D", "CPU [#0]: AMD Ryzen 7 9800X3D",
    "CPU [#0]: AMD Ryzen 7 9800X3D"⟩

def wPerf1 : HWiNFOReadingElement :=
  ⟨.Clock, 0, 100, "Core 0 T0 Eff perf #1", "Core 0 T0 Eff perf #1", "MHz",
    4700, 0, 0, 0, "Core 0 T0 Eff perf #1", "MHz"⟩

def wPerf2 : HWiNFOReadingElement :=
  ⟨.Clock, 0, 101, "Core 1 T0 Eff perf #2", "Core 1 T0 Eff perf #2", "MHz",
    4900, 0, 0, 0, "Core 1 T0 Eff perf #2", "MHz"⟩

def wBadReading : HWiNFOReadingElement :=
  ⟨.Temp, 5, 102, "X", "X", "C", 1, 0, 0, 0, "X", "C"⟩

/-- Claim C6: if the sweep collects two or more per-core clock readings
(CPU sensor node, label containing "perf #"), the resulting `cpu_freq` is
their arithmetic mean; if it collects none, `cpu_freq` is unchanged. -/
theorem C6_cpu_freq_mean :
    (∀ (r : SensorReadings) (sensors : List HWiNFOSensorElement)
       (table : List HWiNFOReadingElement),
      2 ≤ (perfValues sensors table).length →
      (read_all_sensors r sensors table).cpu_freq =
        (perfValues sensors table).sum /
          ((perfValues sensors table).length : ℚ)) ∧
    (∀ (r : SensorReadings) (sensors : List HWiNFOSensorElement)
       (table : List HWiNFOReadingElement),
      perfValues sensors table = [] →
      (read_all_sensors r sensors table).cpu_freq = r.cpu_freq) := by
  constructor
  · intro r sensors table h
    have hne : ¬ perfValues sensors table = [] := by
      intro h0
      rw [h0] at h
      simp at h
    rw [read_all_sensors_eq, if_neg hne]
  · intro r sensors table h
    rw [read_all_sensors_eq, if_pos h]
    exact sweep_foldl_fst_cpu_freq sensors table (r, [])

/-- Claim C6 (witness): per-core clock readings 4700 and 4900 yield
`cpu_freq = 4800`. -/
theorem C6_cpu_freq_mean_witness :
    2 ≤ (perfValues [wCpuSensor] [wPerf1, wPerf2]).length ∧
    (read_all_sensors SensorReadings.default [wCpuSensor]
      [wPerf1, wPerf2]).cpu_freq = 4800 := by
  refine ⟨by decide, ?_⟩
  rw [C6_cpu_freq_mean.1 SensorReadings.default [wCpuSensor] [wPerf1, wPerf2]
    (by decide)]
  have hpv : perfValues [wCpuSensor] [wPerf1, wPerf2] = [4700, 4900] := by
    decide
  rw [hpv]
  norm_num

/-- Claim C7: a reading whose `sensor_index` is out of bounds for the
owned sensor list is skipped silently — deleting it from the table does
not change the sweep's result, so it aborts nothing, every later reading
is still processed, and it changes no field.  (The embedding is total, so
no panic is possible.) -/
theorem C7_oob_sensor_index_skipped :
    ∀ (r : SensorReadings) (sensors : List HWiNFOSensorElement)
      (pre post : List HWiNFOReadingElement) (bad : HWiNFOReadingElement),
      sensors.length ≤ bad.sensor_index →
      read_all_sensors r sensors (pre ++ bad :: post) =
        read_all_sensors r sensors (pre ++ post) := by
  intro r sensors pre post bad h
  have hfold : (pre ++ bad :: post).foldl (applyReading sensors) (r, []) =
      (pre ++ post).foldl (applyReading sensors) (r, []) := by
    rw [List.foldl_append, List.foldl_append, List.foldl_cons,
      applyReading_none sensors _ bad (targetOf_oob sensors bad h)]
  have hperf : perfValues sensors (pre ++ bad :: post) =
      perfValues sensors (pre ++ post) := by
    unfold perfValues
    rw [List.filter_append, List.filter_append, List.filter_cons]
    have : isPerfCoreReading sensors bad = false := by
      unfold isPerfCoreReading
      rw [targetOf_oob sensors bad h]
      rfl
    simp [this]
  rw [read_all_sensors_eq, read_all_sensors_eq, hfold, hperf]

/-- Claim C7 (witness): with one sensor and a reading of `sensor_index`
5, the sweep of table `[bad, wPerf1]` equals the sweep of `[wPerf1]`. -/
theorem C7_oob_sensor_index_skipped_witness :
    ([wCpuSensor] : List HWiNFOSensorElement).length ≤ wBadReading.sensor_index ∧
    read_all_sensors SensorReadings.default [wCpuSensor] [wBadReading, wPerf1] =
      read_all_sensors SensorReadings.default [wCpuSensor] [wPerf1] :=
  ⟨by decide,
    C7_oob_sensor_index_skipped SensorReadings.default [wCpuSensor] [] [wPerf1]
      wBadReading (by decide)⟩

/-- Claim C8: a metric field targeted by no reading of the table retains
exactly its pre-sweep value; an `update()` call that performs the sweep
(staleness counter not above the threshold) never returns an error,
whatever the table contains; and across such a call a metric field
targeted by no reading keeps exactly its pre-call value. -/
theorem C8_unmatched_fields_retained :
    (∀ (r : SensorReadings) (sensors : List HWiNFOSensorElement)
       (table : List HWiNFOReadingElement) (fld : MetricField),
      (∀ rd ∈ table, targetOf sensors rd ≠ some fld) →
      getMetric (read_all_sensors r sensors table) fld = getMetric r fld) ∧
    (∀ (s : SensorReader) (E : Type) (newf : Nat → Except E SensorReader)
       (pp : Nat) (table : List HWiNFOReadingElement),
      s.no_change_counter ≤ MAX_NO_CHANGE_COUNT →
      ∃ t, s.update newf pp table = .ok t) ∧
    (∀ (s : SensorReader) (E : Type) (newf : Nat → Except E SensorReader)
       (pp : Nat) (table : List HWiNFOReadingElement) (fld : MetricField),
      s.no_change_counter ≤ MAX_NO_CHANGE_COUNT →
      (∀ rd ∈ table, targetOf s.sensors rd ≠ some fld) →
      ∃ t, s.update newf pp table = .ok t ∧
        getMetric t.readings fld = getMetric s.readings fld) := by
  have part1 : ∀ (r : SensorReadings) (sensors : List HWiNFOSensorElement)
      (table : List HWiNFOReadingElement) (fld : MetricField),
      (∀ rd ∈ table, targetOf sensors rd ≠ some fld) →
      getMetric (read_all_sensors r sensors table) fld = getMetric r fld := by
    intro r sensors table fld h
    by_cases hf : fld = .cpuFreq
    · subst hf
      have hperf : perfValues sensors table = [] := by
        unfold perfValues
        have : table.filter (isPerfCoreReading sensors) = [] := by
          rw [List.filter_eq_nil_iff]
          intro rd hrd
          unfold isPerfCoreReading
          simpa using h rd hrd
        rw [this, List.map_nil]
      rw [read_all_sensors_eq, if_pos hperf]
      exact sweep_foldl_fst_cpu_freq sensors table (r, [])
    · rw [read_all_sensors_eq]
      by_cases hperf : perfValues sensors table = []
      · rw [if_pos hperf]
        exact sweep_foldl_fst_of_not_target sensors table fld h (r, [])
      · rw [if_neg hperf, getMetric_set_cpu_freq _ _ _ hf]
        exact sweep_foldl_fst_of_not_target sensors table fld h (r, [])
  have part2 : ∀ (s : SensorReader) (E : Type)
      (newf : Nat → Except E SensorReader) (pp : Nat)
      (table : List HWiNFOReadingElement),
      s.no_change_counter ≤ MAX_NO_CHANGE_COUNT →
      s.update newf pp table = .ok { s with
        readings := read_all_sensors { s.readings with polling_period := pp }
          s.sensors table,
        no_change_counter :=
          if s.readings = read_all_sensors
              { s.readings with polling_period := pp } s.sensors table
          then s.no_change_counter + 1 else 0 } := by
    intro s E newf pp table h
    unfold SensorReader.update
    rw [if_neg (not_lt.mpr h)]
  refine ⟨part1, fun s E newf pp table h => ⟨_, part2 s E newf pp table h⟩,
    fun s E newf pp table fld h hfld => ⟨_, part2 s E newf pp table h, ?_⟩⟩
  show getMetric (read_all_sensors { s.readings with polling_period := pp }
      s.sensors table) fld = getMetric s.readings fld
  rw [part1 _ _ _ _ hfld, getMetric_set_polling_period]

/-- Claim C8 (witness): a table of two per-core clock readings targets no
GPU temperature, so `gpu_temp` is retained; an `update()` with staleness
counter 0 returns `Ok` on an arbitrary table. -/
theorem C8_unmatched_fields_retained_witness :
    getMetric (read_all_sensors SensorReadings.default [wCpuSensor]
        [wPerf1, wPerf2]) .gpuTemp =
      getMetric SensorReadings.default .gpuTemp ∧
    (∃ t, SensorReader.update ⟨[], SensorReadings.default, 0⟩
        (fun _ => (Except.error 0 : Except Nat SensorReader)) 0
        [wBadReading] = .ok t) ∧
    (∃ t, SensorReader.update ⟨[wCpuSensor], SensorReadings.default, 3⟩
        (fun _ => (Except.error 0 : Except Nat SensorReader)) 0
        [wPerf1, wPerf2] = .ok t ∧
      getMetric t.readings .gpuTemp =
        getMetric SensorReadings.default .gpuTemp) :=
  ⟨C8_unmatched_fields_retained.1 SensorReadings.default [wCpuSensor]
      [wPerf1, wPerf2] .gpuTemp (by decide),
    C8_unmatched_fields_retained.2.1 ⟨[], SensorReadings.default, 0⟩ Nat
      (fun _ => (Except.error 0 : Except Nat SensorReader)) 0
      [wBadReading] (by decide),
    C8_unmatched_fields_retained.2.2 ⟨[wCpuSensor], SensorReadings.default, 3⟩
      Nat (fun _ => (Except.error 0 : Except Nat SensorReader)) 0
      [wPerf1, wPerf2] .gpuTemp (by decide) (by decide)⟩

/-- Concrete inputs for the staleness-counter claim: a fresh reader with
no sensors, an empty reading table with polling period 0 (so every sweep
leaves the readings byte-identical), and an always-failing reconnect
oracle. -/
def c1Start : SensorReader := ⟨[], SensorReadings.default, 0⟩

def c1Fail : Nat → Except Nat SensorReader := fun _ => .error 0

/-- One `update()` call on the previous call's result. -/
def c1Step (x : Except (Nat × Nat) SensorReader) :
    Except (Nat × Nat) SensorReader :=
  x.bind (fun s => s.update c1Fail 0 [])

/-- Claim C1 (counterexample): five consecutive `update()` calls that
leave the readings identical bring the staleness counter exactly to 5,
yet the sixth call still returns `Ok` — with a reconnect oracle whose
every attempt fails — and parses normally (counter reaches 6).  The
claim's "the next update() call triggers a reconnect attempt ... a
reconnect failure makes that update() call return an error" is therefore
false: the reconnect happens one call later, when the counter exceeds 5. -/
theorem C1_counterexample :
    c1Step^[5] (.ok c1Start) = .ok ⟨[], SensorReadings.default, 5⟩ ∧
    c1Step^[6] (.ok c1Start) = .ok ⟨[], SensorReadings.default, 6⟩ :=
  ⟨rfl, rfl⟩

/-- Claim C1 (amended): only once the staleness counter *exceeds*
`MAX_NO_CHANGE_COUNT = 5` — i.e. at the start of the call after six
consecutive unchanged updates — does `update()` tear the source down and
reconnect through the retry policy (`MAX_CONNECTION_RETRIES = 3`
attempts): if attempt `k < 3` is the first `Self::new()` to succeed the
call returns `Ok` with the reader replaced (no parsing of the old
mapping); if all three attempts fail the call returns the wrapped error
of the last attempt. -/
theorem C1_reconnect_when_counter_exceeds_five :
    ∀ (s : SensorReader) (E : Type) (newf : Nat → Except E SensorReader)
      (pp : Nat) (table : List HWiNFOReadingElement),
      MAX_NO_CHANGE_COUNT < s.no_change_counter →
      (∀ (k : Nat) (t : SensorReader), k < MAX_CONNECTION_RETRIES →
        newf k = .ok t → (∀ j, j < k → ∃ e, newf j = .error e) →
        s.update newf pp table = .ok t) ∧
      ((∀ j, j < MAX_CONNECTION_RETRIES → ∃ e, newf j = .error e) →
        ∃ e, newf (MAX_CONNECTION_RETRIES - 1) = .error e ∧
          s.update newf pp table = .error (MAX_CONNECTION_RETRIES, e)) := by
  intro s E newf pp table h
  have hmax : max MAX_CONNECTION_RETRIES 1 = MAX_CONNECTION_RETRIES := rfl
  constructor
  · intro k t hk hok hfail
    have hgo := retryGo_ok newf MAX_CONNECTION_RETRIES k t
      (lt_of_lt_of_le hk (le_max_left _ _)) hok hfail k 0 (by omega) (by omega)
    unfold SensorReader.update
    rw [if_pos h]
    show (match (retry_with_backoff MAX_CONNECTION_RETRIES RETRY_DELAY_SECS
        newf).1 with
      | .ok t => Except.ok t
      | .error e => Except.error e) = Except.ok t
    rw [show retry_with_backoff MAX_CONNECTION_RETRIES RETRY_DELAY_SECS newf =
        retryGo newf MAX_CONNECTION_RETRIES 0 from rfl, hgo]
  · intro hfail
    obtain ⟨e, he, hgo⟩ := retryGo_fail newf MAX_CONNECTION_RETRIES
      (hmax ▸ hfail) (max MAX_CONNECTION_RETRIES 1) 0 (by omega) (by omega)
    refine ⟨e, hmax ▸ he, ?_⟩
    unfold SensorReader.update
    rw [if_pos h]
    show (match (retry_with_backoff MAX_CONNECTION_RETRIES RETRY_DELAY_SECS
        newf).1 with
      | .ok t => Except.ok t
      | .error e => Except.error e) = Except.error (MAX_CONNECTION_RETRIES, e)
    rw [show retry_with_backoff MAX_CONNECTION_RETRIES RETRY_DELAY_SECS newf =
        retryGo newf MAX_CONNECTION_RETRIES 0 from rfl, hgo]

/-- Claim C1 (witness): a reader whose counter is 6 reconnects — with a
first-attempt-successful oracle the call returns the fresh reader; with
an always-failing oracle it returns the error of the third attempt
wrapped with attempt count 3. -/
theorem C1_reconnect_when_counter_exceeds_five_witness :
    SensorReader.update ⟨[], SensorReadings.default, 6⟩
        (fun _ => (Except.ok c1Start : Except Nat SensorReader)) 0 [] =
      .ok c1Start ∧
    SensorReader.update ⟨[], SensorReadings.default, 6⟩
        (fun _ => (Except.error 7 : Except Nat SensorReader)) 0 [] =
      .error (3, 7) := by
  constructor
  · exact (C1_reconnect_when_counter_exceeds_five
        ⟨[], SensorReadings.default, 6⟩ Nat
        (fun _ => (Except.ok c1Start : Except Nat SensorReader)) 0 []
        (by decide)).1 0 c1Start (by decide) rfl
      (fun j hj => absurd hj (by omega))
  · obtain ⟨e, he, hu⟩ := (C1_reconnect_when_counter_exceeds_five
        ⟨[], SensorReadings.default, 6⟩ Nat
        (fun _ => (Except.error 7 : Except Nat SensorReader)) 0 []
        (by decide)).2 (fun j hj => ⟨7, rfl⟩)
    have he' : e = 7 := by
      have h7 : Except.error (ε := Nat) (α := SensorReader) 7 = .error e := he
      cases h7
      rfl
    subst he'
    exact hu

end DeepcoolCH170
